import Mathlib

/-!
Verification development for the average-annual-ideal-running-temperature-days
pipeline (aairtd). The pipeline stages of src/aairtd.py, and the
precipitation-aware checkpoint variant, are embedded as pure functions over
lists of observations. An observation mirrors one row of the loaded frame:
a nullable local timestamp (null after a failed parse), a nullable apparent
temperature, and a nullable precipitation amount (null for missing or trace
tokens). Pandas comparisons against a null value never match, so every
predicate below returns false on a null field, exactly as the source does.
-/

namespace Aairtd

/-- Local wall-clock fields of a normalized timestamp, as used by the
filters: calendar year, month, day and hour. -/
structure Timestamp where
  year : Nat
  month : Nat
  day : Nat
  hour : Nat
deriving DecidableEq, Repr

/-- One loaded observation row: nullable timestamp, nullable apparent
temperature (feel) and nullable precipitation amount (p01m). The main
variant ignores p01m; the checkpoint variant reads it. -/
structure Observation where
  valid : Option Timestamp
  feel : Option ℚ
  p01m : Option ℚ
deriving DecidableEq, Repr

/-- Row predicate of filter_daylight_hours: the local hour is at least 6 and
below 18. A null timestamp never matches, as in pandas. -/
def daylightOk (r : Observation) : Bool :=
  match r.valid with
  | some t => decide (6 ≤ t.hour) && decide (t.hour < 18)
  | none => false

/-- filter_daylight_hours of src/aairtd.py line 140: keep rows whose local
hour lies in the half-open window from 6 to 18. -/
def filter_daylight_hours (data : List Observation) : List Observation :=
  data.filter daylightOk

/-- Row predicate of filter_ideal_temps: apparent temperature between 50 and
63.5 inclusive. A null temperature never matches. -/
def idealTempOk (r : Observation) : Bool :=
  match r.feel with
  | some x => decide ((50 : ℚ) ≤ x) && decide (x ≤ (63.5 : ℚ))
  | none => false

/-- filter_ideal_temps of src/aairtd.py line 145: keep rows with apparent
temperature in the closed range from 50 to 63.5. -/
def filter_ideal_temps (data : List Observation) : List Observation :=
  data.filter idealTempOk

/-- Precipitation conjunct of the checkpoint variant: p01m equals 0.00
exactly. A null (missing or trace) precipitation never matches. -/
def precipOk (r : Observation) : Bool :=
  match r.p01m with
  | some p => decide (p = (0 : ℚ))
  | none => false

/-- Row predicate of filter_ideal_conditions of the checkpoint file line
111: ideal temperature and exactly zero precipitation. -/
def idealCondOk (r : Observation) : Bool :=
  idealTempOk r && precipOk r

/-- filter_ideal_conditions of the checkpoint file: keep rows with ideal
temperature and precipitation equal to 0.00. -/
def filter_ideal_conditions (data : List Observation) : List Observation :=
  data.filter idealCondOk

/-- First-occurrence deduplication, the order semantics of pandas unique:
keep the first occurrence of each element, in order of first appearance. -/
def firstDedup {α : Type} [DecidableEq α] : List α → List α
  | [] => []
  | y :: ys => y :: (firstDedup ys).filter (fun z => decide (z ≠ y))

/-- The year of every row with a non-null timestamp, in row order. This is
the series data.valid.dt.year restricted to its non-null entries; the null
entries of the pandas series never survive any of the comparisons the
source makes on it. -/
def validYears (data : List Observation) : List Nat :=
  data.filterMap (fun r => r.valid.map (fun t => t.year))

/-- The months of the rows of a given year: the series
year_data.valid.dt.month for year_data the rows whose year equals y. -/
def monthsOfYear (data : List Observation) (y : Nat) : List Nat :=
  data.filterMap (fun r =>
    match r.valid with
    | some t => if t.year = y then some t.month else none
    | none => none)

/-- Minimum of a list of naturals, none on the empty list, as series.min. -/
def listMin : List Nat → Option Nat
  | [] => none
  | x :: xs =>
    match listMin xs with
    | none => some x
    | some m => some (Nat.min x m)

/-- Maximum of a list of naturals, none on the empty list, as series.max. -/
def listMax : List Nat → Option Nat
  | [] => none
  | x :: xs =>
    match listMax xs with
    | none => some x
    | some m => some (Nat.max x m)

/-- The weak completeness test of get_complete_years line 157: the minimum
observed month of the year equals 1 and the maximum equals 12. -/
def completeYearTest (data : List Observation) (y : Nat) : Bool :=
  decide (listMin (monthsOfYear data y) = some 1) &&
    decide (listMax (monthsOfYear data y) = some 12)

/-- get_complete_years of src/aairtd.py line 150: iterate over the unique
years of the data in first-appearance order and collect those whose minimum
observed month is 1 and maximum observed month is 12. -/
def get_complete_years (data : List Observation) : List Nat :=
  (firstDedup (validYears data)).filter (completeYearTest data)

/-- filter_complete_years of src/aairtd.py line 163: keep rows whose year is
a member of the complete-year list. A null timestamp never matches isin. -/
def filter_complete_years (data : List Observation)
    (complete_years : List Nat) : List Observation :=
  data.filter (fun r =>
    match r.valid with
    | some t => decide (t.year ∈ complete_years)
    | none => false)

/-- The local calendar date of a timestamp, the value dt.date projects. -/
def dateOf (t : Timestamp) : Nat × Nat × Nat := (t.year, t.month, t.day)

/-- The dates of the rows with a non-null timestamp, in row order. -/
def datesList (data : List Observation) : List (Nat × Nat × Nat) :=
  data.filterMap (fun r => r.valid.map dateOf)

/-- data.valid.dt.date.nunique(): the number of distinct local calendar
dates among the non-null timestamps (nunique drops nulls by default). -/
def countDistinctDates (data : List Observation) : Nat :=
  (firstDedup (datesList data)).length

/-- calculate_average_ideal_days_per_year of src/aairtd.py line 168: the
number of distinct dates divided by the number of complete years, and 0
when there are no complete years. -/
def calculate_average_ideal_days_per_year (filtered_data : List Observation)
    (complete_years : List Nat) : ℚ :=
  if 0 < complete_years.length then
    (countDistinctDates filtered_data : ℚ) / (complete_years.length : ℚ)
  else 0

/-- Python round: round half to even, on the exact rational value. -/
def pyRound (q : ℚ) : ℤ :=
  let f := Int.floor q
  let r := q - f
  if r < 1 / 2 then f
  else if 1 / 2 < r then f + 1
  else if f % 2 = 0 then f else f + 1

/-- calculate_average_ideal_days_per_year of the checkpoint file line 134:
identical quotient, rounded to the nearest integer before reporting. -/
def calculate_average_ideal_days_per_year_ckpt
    (filtered_data : List Observation) (complete_years : List Nat) : ℤ :=
  pyRound
    (if 0 < complete_years.length then
      (countDistinctDates filtered_data : ℚ) / (complete_years.length : ℚ)
    else 0)

/-- average_annual_ideal_run_temp_days of src/aairtd.py line 175, from the
point where the observations are loaded, coerced and normalized to local
time: daylight filter, temperature filter, completeness detection on the
filtered set, year restriction of the same filtered set, then the average. -/
def average_annual_ideal_run_temp_days (data : List Observation) : ℚ :=
  let data_daylight := filter_daylight_hours data
  let filtered_data := filter_ideal_temps data_daylight
  let complete_years := get_complete_years filtered_data
  let complete_data := filter_complete_years filtered_data complete_years
  calculate_average_ideal_days_per_year complete_data complete_years

/-- average_annual_ideal_run_days of the checkpoint file line 141: same
shape with the precipitation-aware condition filter and rounded average. -/
def average_annual_ideal_run_days (data : List Observation) : ℤ :=
  let data_daylight := filter_daylight_hours data
  let filtered_data := filter_ideal_conditions data_daylight
  let complete_years := get_complete_years filtered_data
  let complete_data := filter_complete_years filtered_data complete_years
  calculate_average_ideal_days_per_year_ckpt complete_data complete_years

/-- The placeholder code call_sign returns for an empty metadata file. -/
def unknownCode : List Char := ['U', 'N', 'K', 'N', 'O', 'W', 'N']

/-- The placeholder code call_sign returns for an over-long metadata code. -/
def kUnknownCode : List Char := ['K', 'U', 'N', 'K', 'N', 'O', 'W', 'N']

/-- call_sign of src/aairtd.py line 97, over the first metadata cell (none
when the metadata file is empty): the code as-is when it has 4 characters,
the code with a K prepended when shorter, the placeholder KUNKNOWN when
longer, and the placeholder UNKNOWN for an empty file. -/
def call_sign (firstCell : Option (List Char)) : List Char :=
  match firstCell with
  | none => unknownCode
  | some code =>
    if code.length < 4 then 'K' :: code
    else if code.length = 4 then code
    else kUnknownCode

/-- One station of a batch: the first cell of its metadata file (none when
that file is empty) and the outcome of loading and normalizing its data
(none when loading or the timezone lookup raises). -/
structure Station where
  firstCell : Option (List Char)
  load : Option (List Observation)

/-- One row of the results table: station identifier and average. -/
structure ResultRow where
  icao : List Char
  aairtd : ℚ
deriving DecidableEq, Repr

/-- Processing of one station inside the loop of write_all_results_to_csv
line 196: derive the call sign, then run the pipeline. A raised loading or
timezone error is not caught anywhere in the loop, so it propagates. -/
def process_station (s : Station) : Option ResultRow :=
  match s.load with
  | none => none
  | some data =>
    some { icao := call_sign s.firstCell
           aairtd := average_annual_ideal_run_temp_days data }

/-- write_all_results_to_csv of src/aairtd.py line 187: process the stations
in order and collect one row each. The loop has no try-except, so the first
station whose processing raises aborts the whole batch: no table is
produced at all. -/
def write_all_results_to_csv : List Station → Option (List ResultRow)
  | [] => some []
  | s :: rest =>
    match process_station s, write_all_results_to_csv rest with
    | some r, some rs => some (r :: rs)
    | _, _ => none

/-- The station-identifier invariant claimed of every result row: the
identifier is the 4-character metadata code taken as-is, or was synthesized
by prepending the network character K. -/
def prefixedForm (cell : Option (List Char)) (icao : List Char) : Prop :=
  (∃ c, cell = some c ∧ c.length = 4 ∧ icao = c) ∨ icao.head? = some 'K'

/-- Concrete observation: March of 2001, daylight, ideal temperature. -/
def obsMarch : Observation :=
  { valid := some ⟨2001, 3, 4, 9⟩, feel := some 55, p01m := some 0 }

/-- Concrete observation: October of 2001, daylight, ideal temperature. -/
def obsOctober : Observation :=
  { valid := some ⟨2001, 10, 20, 15⟩, feel := some 55, p01m := some 0 }

/-- Concrete observation: January 2 of 2001, daylight, ideal temperature. -/
def obsJanuary : Observation :=
  { valid := some ⟨2001, 1, 2, 7⟩, feel := some 55, p01m := some 0 }

/-- Concrete observation: December 30 of 2001, daylight, ideal temperature. -/
def obsDecember : Observation :=
  { valid := some ⟨2001, 12, 30, 17⟩, feel := some 55, p01m := some 0 }

/-- Concrete observation: the same local date as obsJanuary, another hour. -/
def obsJanDup : Observation :=
  { valid := some ⟨2001, 1, 2, 9⟩, feel := some 55, p01m := some 0 }

/-- Concrete observation: January of 2000 passing both filters. -/
def c9jan : Observation :=
  { valid := some ⟨2000, 1, 5, 10⟩, feel := some 55, p01m := some 0 }

/-- Concrete observation: December of 2000, daylight hour, too hot for the
temperature filter. -/
def c9dec : Observation :=
  { valid := some ⟨2000, 12, 5, 10⟩, feel := some 100, p01m := some 0 }

/-- Concrete set on which the raw data has a complete year 2000 but the
filtered data does not: the two pipeline orders disagree here. -/
def exC9 : List Observation := [c9jan, c9dec]

/-- A healthy station with two observations. -/
def stOne : Station :=
  { firstCell := some ['A', 'B', 'C', 'D'], load := some [obsJanuary, obsDecember] }

/-- A station whose loading or timezone lookup raises. -/
def stTwoFail : Station :=
  { firstCell := some ['E', 'F', 'G', 'H'], load := none }

/-- A healthy station with an empty observation set. -/
def stThree : Station :=
  { firstCell := some ['I', 'J', 'K', 'L'], load := some [] }

/-- A station whose metadata file is empty but whose data loads fine. -/
def stEmptyMeta : Station := { firstCell := none, load := some [] }

theorem mem_firstDedup {α : Type} [DecidableEq α] (a : α) :
    ∀ l : List α, a ∈ firstDedup l ↔ a ∈ l := by
  intro l
  induction l with
  | nil => simp [firstDedup]
  | cons y ys ih =>
    simp only [firstDedup, List.mem_cons, List.mem_filter, ih, decide_eq_true_eq]
    by_cases hay : a = y
    · simp [hay]
    · simp [hay]

theorem nodup_firstDedup {α : Type} [DecidableEq α] :
    ∀ l : List α, (firstDedup l).Nodup := by
  intro l
  induction l with
  | nil => simp [firstDedup]
  | cons y ys ih =>
    refine List.nodup_cons.mpr ⟨?_, ih.filter _⟩
    intro hy
    have := (List.mem_filter.mp hy).2
    simp at this

theorem firstDedup_filter {α : Type} [DecidableEq α] (p : α → Bool) :
    ∀ l : List α, firstDedup (l.filter p) = (firstDedup l).filter p := by
  intro l
  induction l with
  | nil => simp [firstDedup]
  | cons y ys ih =>
    by_cases hp : p y
    · rw [List.filter_cons_of_pos hp]
      simp only [firstDedup]
      rw [List.filter_cons_of_pos hp, ih, List.filter_filter, List.filter_filter]
      congr 1
      apply List.filter_congr
      intro a _
      exact Bool.and_comm _ _
    · rw [List.filter_cons_of_neg (by simpa using hp)]
      simp only [firstDedup]
      rw [List.filter_cons_of_neg (by simpa using hp), ih, List.filter_filter]
      apply List.filter_congr
      intro a _
      by_cases hay : a = y
      · have hf : p a = false := by rw [hay]; simpa using hp
        simp [hf]
      · simp [hay]

theorem validYears_filter_complete (d : List Observation) (cy : List Nat) :
    validYears (filter_complete_years d cy) =
      (validYears d).filter (fun y => decide (y ∈ cy)) := by
  induction d with
  | nil => rfl
  | cons r rest ih =>
    obtain ⟨v, f, pp⟩ := r
    cases v with
    | none =>
      simpa [filter_complete_years, validYears, List.filter_cons, List.filterMap_cons]
        using ih
    | some t =>
      by_cases hy : t.year ∈ cy
      · simp only [filter_complete_years, validYears, List.filter_cons,
          List.filterMap_cons] at ih ⊢
        simp [hy, ih]
      · simp only [filter_complete_years, validYears, List.filter_cons,
          List.filterMap_cons] at ih ⊢
        simp [hy, ih]

theorem monthsOfYear_filter_complete (d : List Observation) (cy : List Nat)
    (y : Nat) (h : y ∈ cy) :
    monthsOfYear (filter_complete_years d cy) y = monthsOfYear d y := by
  induction d with
  | nil => rfl
  | cons r rest ih =>
    obtain ⟨v, f, pp⟩ := r
    cases v with
    | none =>
      simpa [filter_complete_years, monthsOfYear, List.filter_cons, List.filterMap_cons]
        using ih
    | some t =>
      by_cases hy : t.year ∈ cy
      · by_cases hty : t.year = y
        · simp only [filter_complete_years, monthsOfYear, List.filter_cons,
            List.filterMap_cons] at ih ⊢
          simp [hy, hty, ih, h]
        · simp only [filter_complete_years, monthsOfYear, List.filter_cons,
            List.filterMap_cons] at ih ⊢
          simp [hy, hty, ih, h]
      · have hne : t.year ≠ y := fun he => hy (he ▸ h)
        simp only [filter_complete_years, monthsOfYear, List.filter_cons,
          List.filterMap_cons] at ih ⊢
        simp [hy, hne, ih]

theorem length_filter_ne {α : Type} [DecidableEq α] (x : α) :
    ∀ l : List α, l.Nodup → x ∈ l →
      (l.filter (fun z => decide (z ≠ x))).length + 1 = l.length := by
  intro l
  induction l with
  | nil => simp
  | cons a as ih =>
    intro hnd hm
    by_cases hax : a = x
    · subst hax
      have hnotin : a ∉ as := (List.nodup_cons.mp hnd).1
      have hself : as.filter (fun z => decide (z ≠ a)) = as := by
        apply List.filter_eq_self.mpr
        intro z hz
        have hza : z ≠ a := fun he => hnotin (he ▸ hz)
        simpa using hza
      have h1 : List.filter (fun z => decide (z ≠ a)) (a :: as)
          = List.filter (fun z => decide (z ≠ a)) as := by
        rw [List.filter_cons]
        simp
      rw [h1, hself, List.length_cons]
    · have hm2 : x ∈ as := by
        rcases List.mem_cons.mp hm with h | h
        · exact absurd h.symm hax
        · exact h
      have hih := ih (List.nodup_cons.mp hnd).2 hm2
      have hkeep : (decide (a ≠ x)) = true := by simpa using hax
      simp only [List.filter_cons, hkeep, if_true, List.length_cons]
      omega

theorem countDistinctDates_cons_mem (r : Observation) (t : Timestamp)
    (filtered : List Observation) (hv : r.valid = some t)
    (hd : dateOf t ∈ datesList filtered) :
    countDistinctDates (r :: filtered) = countDistinctDates filtered := by
  have hdl : datesList (r :: filtered) = dateOf t :: datesList filtered := by
    simp [datesList, List.filterMap_cons, hv]
  have hx : dateOf t ∈ firstDedup (datesList filtered) := (mem_firstDedup _ _).mpr hd
  have hlen := length_filter_ne (dateOf t) (firstDedup (datesList filtered))
    (nodup_firstDedup _) hx
  unfold countDistinctDates
  rw [hdl]
  show (dateOf t :: (firstDedup (datesList filtered)).filter
    (fun z => decide (z ≠ dateOf t))).length = _
  simpa using hlen

theorem idealTempOk_iff (r : Observation) :
    idealTempOk r = true ↔ ∃ x, r.feel = some x ∧ (50 : ℚ) ≤ x ∧ x ≤ 63.5 := by
  unfold idealTempOk
  cases hf : r.feel <;> simp [hf]

theorem precipOk_iff (r : Observation) : precipOk r = true ↔ r.p01m = some 0 := by
  unfold precipOk
  cases hp : r.p01m <;> simp [hp]

/-- Claim C1: the code at the failing input. A 3-station batch in which only
station 2 fails (stations 1 and 3 process fine on their own) produces no
results table at all: the uncaught per-station failure aborts the whole
batch instead of being recorded as a sentinel row among exactly 3 rows. -/
theorem batch_aborts_on_single_station_failure :
    write_all_results_to_csv [stOne, stTwoFail, stThree] = none ∧
    process_station stOne ≠ none ∧
    process_station stThree ≠ none ∧
    process_station stTwoFail = none := by
  refine ⟨rfl, ?_, ?_, rfl⟩
  · have h1 : process_station stOne = some
        { icao := call_sign stOne.firstCell
          aairtd := average_annual_ideal_run_temp_days [obsJanuary, obsDecember] } := rfl
    rw [h1]
    exact Option.some_ne_none _
  · have h3 : process_station stThree = some
        { icao := call_sign stThree.firstCell
          aairtd := average_annual_ideal_run_temp_days [] } := rfl
    rw [h3]
    exact Option.some_ne_none _

/-- Claim C2, counterexample: for a station whose metadata file is empty the
batch produces a result row whose identifier is the placeholder UNKNOWN,
which is neither a 4-character metadata code taken as-is nor prefixed with
the network character K, so the claimed invariant fails in this
fallback case. -/
theorem empty_metadata_row_lacks_prefix :
    write_all_results_to_csv [stEmptyMeta]
        = some [{ icao := unknownCode, aairtd := 0 }] ∧
    ¬ prefixedForm stEmptyMeta.firstCell unknownCode := by
  refine ⟨rfl, ?_⟩
  rintro (⟨c, hc, _⟩ | hk)
  · exact Option.noConfusion hc
  · simp [unknownCode] at hk

/-- Claim C2, amended: whenever the station metadata is nonempty, the result
row identifier carries the prefix: it is the 4-character metadata code
taken as-is, or begins with the prepended network character K (this also
covers the over-long fallback placeholder KUNKNOWN). Only the empty-metadata
fallback UNKNOWN escapes the invariant. -/
theorem nonempty_metadata_row_prefixed (s : Station) (c : List Char)
    (hc : s.firstCell = some c) (row : ResultRow)
    (hrow : process_station s = some row) :
    prefixedForm s.firstCell row.icao := by
  have hicao : row.icao = call_sign s.firstCell := by
    unfold process_station at hrow
    cases hl : s.load with
    | none => rw [hl] at hrow; exact Option.noConfusion hrow
    | some data =>
      rw [hl] at hrow
      have := Option.some.inj hrow
      rw [← this]
  rw [hicao, hc]
  unfold call_sign prefixedForm
  by_cases h4 : c.length < 4
  · right
    simp [h4]
  · by_cases he : c.length = 4
    · left
      exact ⟨c, rfl, he, by simp [h4, he]⟩
    · right
      simp [h4, he, kUnknownCode]

/-- Claim C2, witness: the amended statement applied to a station with a
4-character metadata code and an empty observation set. -/
theorem nonempty_metadata_row_prefixed_witness :
    prefixedForm stThree.firstCell
      (ResultRow.mk ['I', 'J', 'K', 'L'] (average_annual_ideal_run_temp_days [])).icao :=
  nonempty_metadata_row_prefixed stThree ['I', 'J', 'K', 'L'] rfl _ rfl

/-- Claim C3: a year is returned by get_complete_years exactly when it
occurs in the data and the minimum observed month of its records is 1 and
the maximum is 12; a year with only March..October records is excluded,
a year with one January and one December record is included, and the empty
input yields the empty output. -/
theorem complete_years_characterization :
    (∀ (d : List Observation) (y : Nat),
        y ∈ get_complete_years d ↔
          (∃ r ∈ d, ∃ t, r.valid = some t ∧ t.year = y) ∧
          listMin (monthsOfYear d y) = some 1 ∧
          listMax (monthsOfYear d y) = some 12) ∧
    get_complete_years [] = [] ∧
    get_complete_years [obsMarch, obsOctober] = [] ∧
    get_complete_years [obsJanuary, obsDecember] = [2001] := by
  refine ⟨?_, rfl, by decide, by decide⟩
  intro d y
  simp only [get_complete_years, List.mem_filter, mem_firstDedup, validYears,
    List.mem_filterMap, Option.map_eq_some', completeYearTest, Bool.and_eq_true,
    decide_eq_true_eq]

/-- Claim C3, witness: the characterization applied to the concrete set with
one January and one December record of year 2001. -/
theorem complete_years_characterization_witness :
    2001 ∈ get_complete_years [obsJanuary, obsDecember] :=
  (complete_years_characterization.1 [obsJanuary, obsDecember] 2001).mpr
    ⟨⟨obsJanuary, by simp, ⟨2001, 1, 2, 7⟩, rfl, rfl⟩, by decide, by decide⟩

/-- Claim C4: with zero qualifying years the averager returns 0, in both the
unrounded main variant and the rounded checkpoint variant; being total
functions of the guarded form, neither can raise a division error. -/
theorem averager_zero_years (filtered : List Observation) (cys : List Nat)
    (h : cys.length = 0) :
    calculate_average_ideal_days_per_year filtered cys = 0 ∧
    calculate_average_ideal_days_per_year_ckpt filtered cys = 0 := by
  constructor
  · simp [calculate_average_ideal_days_per_year, h]
  · simp only [calculate_average_ideal_days_per_year_ckpt, h]
    norm_num [pyRound]

/-- Claim C4, witness: the zero-years case on concrete empty inputs. -/
theorem averager_zero_years_witness :
    calculate_average_ideal_days_per_year [] [] = 0 ∧
    calculate_average_ideal_days_per_year_ckpt [] [] = 0 :=
  averager_zero_years [] [] rfl

/-- Claim C5: with a positive number of qualifying years the averager equals
the number of distinct local calendar dates divided by the year count, and
adding a second record on an already-present local date changes neither the
distinct-date count nor the average. -/
theorem averager_counts_distinct_dates (filtered : List Observation)
    (cys : List Nat) (hpos : 0 < cys.length) (r : Observation) (t : Timestamp)
    (hv : r.valid = some t) (hd : dateOf t ∈ datesList filtered) :
    calculate_average_ideal_days_per_year filtered cys
        = (countDistinctDates filtered : ℚ) / (cys.length : ℚ) ∧
    countDistinctDates (r :: filtered) = countDistinctDates filtered ∧
    calculate_average_ideal_days_per_year (r :: filtered) cys
        = calculate_average_ideal_days_per_year filtered cys := by
  have hcnt := countDistinctDates_cons_mem r t filtered hv hd
  refine ⟨?_, hcnt, ?_⟩
  · simp [calculate_average_ideal_days_per_year, hpos]
  · simp [calculate_average_ideal_days_per_year, hcnt]

/-- Claim C5, witness: duplicating the January record on its own date leaves
the count at 1 and the average over one qualifying year unchanged. -/
theorem averager_counts_distinct_dates_witness :
    calculate_average_ideal_days_per_year [obsJanuary] [2001]
        = (countDistinctDates [obsJanuary] : ℚ) / (([2001] : List Nat).length : ℚ) ∧
    countDistinctDates (obsJanDup :: [obsJanuary]) = countDistinctDates [obsJanuary] ∧
    calculate_average_ideal_days_per_year (obsJanDup :: [obsJanuary]) [2001]
        = calculate_average_ideal_days_per_year [obsJanuary] [2001] :=
  averager_counts_distinct_dates [obsJanuary] [2001] (by decide) obsJanDup
    ⟨2001, 1, 2, 9⟩ rfl (by decide)

/-- Claim C6: the daylight filter output is a sublist (hence a subset) of
its input, and every output record has a non-null timestamp whose local
hour h satisfies both 6 less-or-equal h and h below 18. -/
theorem daylight_filter_window (d : List Observation) :
    (filter_daylight_hours d).Sublist d ∧
    (∀ r ∈ filter_daylight_hours d, r ∈ d) ∧
    ∀ r ∈ filter_daylight_hours d,
      ∃ t, r.valid = some t ∧ 6 ≤ t.hour ∧ t.hour < 18 := by
  refine ⟨List.filter_sublist d, fun r hr => (List.mem_filter.mp hr).1, ?_⟩
  intro r hr
  have h2 := (List.mem_filter.mp hr).2
  unfold daylightOk at h2
  cases hv : r.valid with
  | none => rw [hv] at h2; simp at h2
  | some t =>
    rw [hv] at h2
    simp only [Bool.and_eq_true, decide_eq_true_eq] at h2
    exact ⟨t, rfl, h2.1, h2.2⟩

/-- Claim C6, witness: the window statement at a concrete one-row input. -/
theorem daylight_filter_window_witness :
    (filter_daylight_hours [obsJanuary]).Sublist [obsJanuary] ∧
    (∀ r ∈ filter_daylight_hours [obsJanuary], r ∈ [obsJanuary]) ∧
    ∀ r ∈ filter_daylight_hours [obsJanuary],
      ∃ t, r.valid = some t ∧ 6 ≤ t.hour ∧ t.hour < 18 :=
  daylight_filter_window [obsJanuary]

/-- Claim C7: a record passes the temperature filter exactly when its
apparent temperature is non-null and lies in the closed range 50 to 63.5,
and passes the precipitation-aware variant exactly when additionally its
precipitation is non-null and equals 0 exactly; null temperature and null
precipitation never pass. -/
theorem condition_filter_thresholds (d : List Observation) (r : Observation) :
    (r ∈ filter_ideal_temps d ↔
      r ∈ d ∧ ∃ x, r.feel = some x ∧ (50 : ℚ) ≤ x ∧ x ≤ 63.5) ∧
    (r ∈ filter_ideal_conditions d ↔
      r ∈ d ∧ (∃ x, r.feel = some x ∧ (50 : ℚ) ≤ x ∧ x ≤ 63.5) ∧
        r.p01m = some 0) := by
  constructor
  · rw [filter_ideal_temps, List.mem_filter, idealTempOk_iff]
  · rw [filter_ideal_conditions, List.mem_filter]
    simp only [idealCondOk, Bool.and_eq_true, idealTempOk_iff, precipOk_iff]

/-- Claim C7, witness: the threshold characterization at a concrete record
whose temperature 55 lies inside the closed range. -/
theorem condition_filter_thresholds_witness :
    (obsJanuary ∈ filter_ideal_temps [obsJanuary] ↔
      obsJanuary ∈ [obsJanuary] ∧
        ∃ x, obsJanuary.feel = some x ∧ (50 : ℚ) ≤ x ∧ x ≤ 63.5) ∧
    (obsJanuary ∈ filter_ideal_conditions [obsJanuary] ↔
      obsJanuary ∈ [obsJanuary] ∧
        (∃ x, obsJanuary.feel = some x ∧ (50 : ℚ) ≤ x ∧ x ≤ 63.5) ∧
        obsJanuary.p01m = some 0) :=
  condition_filter_thresholds [obsJanuary] obsJanuary

/-- Claim C8: both condition filters are idempotent: filtering the filtered
output again returns it unchanged. -/
theorem condition_filter_idempotent (d : List Observation) :
    filter_ideal_temps (filter_ideal_temps d) = filter_ideal_temps d ∧
    filter_ideal_conditions (filter_ideal_conditions d)
      = filter_ideal_conditions d := by
  constructor
  · simp [filter_ideal_temps, List.filter_filter]
  · simp [filter_ideal_conditions, List.filter_filter]

/-- Claim C8, witness: idempotence at a concrete one-row input. -/
theorem condition_filter_idempotent_witness :
    filter_ideal_temps (filter_ideal_temps [obsJanuary])
        = filter_ideal_temps [obsJanuary] ∧
    filter_ideal_conditions (filter_ideal_conditions [obsJanuary])
        = filter_ideal_conditions [obsJanuary] :=
  condition_filter_idempotent [obsJanuary]

/-- Claim C9: both pipeline variants run the completeness detector and the
year restriction on the daylight- and condition-filtered set; on the
concrete set exC9 the raw data has complete year 2000 while the filtered
data has none, the pipeline returns 0 as the filtered order dictates, and
the raw-completeness order would have returned 1 instead. -/
theorem pipeline_filters_before_completeness :
    (∀ d : List Observation,
        average_annual_ideal_run_temp_days d =
          calculate_average_ideal_days_per_year
            (filter_complete_years (filter_ideal_temps (filter_daylight_hours d))
              (get_complete_years (filter_ideal_temps (filter_daylight_hours d))))
            (get_complete_years (filter_ideal_temps (filter_daylight_hours d)))) ∧
    (∀ d : List Observation,
        average_annual_ideal_run_days d =
          calculate_average_ideal_days_per_year_ckpt
            (filter_complete_years
              (filter_ideal_conditions (filter_daylight_hours d))
              (get_complete_years
                (filter_ideal_conditions (filter_daylight_hours d))))
            (get_complete_years
              (filter_ideal_conditions (filter_daylight_hours d)))) ∧
    get_complete_years exC9 = [2000] ∧
    get_complete_years (filter_ideal_temps (filter_daylight_hours exC9)) = [] ∧
    average_annual_ideal_run_temp_days exC9 = 0 ∧
    calculate_average_ideal_days_per_year
        (filter_complete_years (filter_ideal_temps (filter_daylight_hours exC9))
          (get_complete_years exC9))
        (get_complete_years exC9) = 1 := by
  have hdl : filter_daylight_hours exC9 = [c9jan, c9dec] := by
    norm_num [filter_daylight_hours, daylightOk, exC9, c9jan, c9dec, List.filter]
  have hft : filter_ideal_temps [c9jan, c9dec] = [c9jan] := by
    norm_num [filter_ideal_temps, idealTempOk, c9jan, c9dec, List.filter]
  have hgr : get_complete_years exC9 = [2000] := by decide
  have hg1 : get_complete_years [c9jan] = [] := by decide
  refine ⟨fun d => rfl, fun d => rfl, hgr, ?_, ?_, ?_⟩
  · rw [hdl, hft, hg1]
  · show calculate_average_ideal_days_per_year
      (filter_complete_years (filter_ideal_temps (filter_daylight_hours exC9))
        (get_complete_years (filter_ideal_temps (filter_daylight_hours exC9))))
      (get_complete_years (filter_ideal_temps (filter_daylight_hours exC9))) = 0
    rw [hdl, hft, hg1]
    rfl
  · rw [hdl, hft, hgr]
    have hfc : filter_complete_years [c9jan] [2000] = [c9jan] := by decide
    rw [hfc]
    have hcd : countDistinctDates [c9jan] = 1 := by decide
    simp [calculate_average_ideal_days_per_year, hcd]

/-- Claim C9, witness: the main-variant dataflow equation at the empty
input. -/
theorem pipeline_filters_before_completeness_witness :
    average_annual_ideal_run_temp_days [] =
      calculate_average_ideal_days_per_year
        (filter_complete_years (filter_ideal_temps (filter_daylight_hours []))
          (get_complete_years (filter_ideal_temps (filter_daylight_hours []))))
        (get_complete_years (filter_ideal_temps (filter_daylight_hours []))) :=
  pipeline_filters_before_completeness.1 []

/-- Claim C10: restricting a set to its complete years and re-running the
completeness detector returns the same list of years: the restriction keeps
every record of each complete year, so the month extrema are unchanged. -/
theorem complete_years_stable (d : List Observation) :
    get_complete_years (filter_complete_years d (get_complete_years d)) =
      get_complete_years d := by
  have key : ∀ y ∈ firstDedup (validYears d),
      (completeYearTest (filter_complete_years d (get_complete_years d)) y &&
        decide (y ∈ get_complete_years d))
        = completeYearTest d y := by
    intro y hyU
    by_cases hmem : y ∈ get_complete_years d
    · have hmonths := monthsOfYear_filter_complete d (get_complete_years d) y hmem
      have htest : completeYearTest (filter_complete_years d (get_complete_years d)) y
          = completeYearTest d y := by
        simp only [completeYearTest, hmonths]
      simp [hmem, htest]
    · have hfalse : completeYearTest d y = false := by
        cases hb : completeYearTest d y
        · rfl
        · exact absurd (List.mem_filter.mpr ⟨hyU, hb⟩) hmem
      simp [hmem, hfalse]
  show (firstDedup (validYears (filter_complete_years d (get_complete_years d)))).filter
      (completeYearTest (filter_complete_years d (get_complete_years d)))
      = get_complete_years d
  rw [validYears_filter_complete, firstDedup_filter, List.filter_filter]
  conv_rhs => rw [show get_complete_years d
    = (firstDedup (validYears d)).filter (completeYearTest d) from rfl]
  exact List.filter_congr key

/-- Claim C10, witness: stability at the concrete two-record set whose only
year 2001 is complete. -/
theorem complete_years_stable_witness :
    get_complete_years
        (filter_complete_years [obsJanuary, obsDecember]
          (get_complete_years [obsJanuary, obsDecember])) =
      get_complete_years [obsJanuary, obsDecember] :=
  complete_years_stable [obsJanuary, obsDecember]

end Aairtd
